import Mathlib

/-!
Shallow embedding of `openbb_terminal/jupyter/widget_helpers.py`, the widget
helper library for notebook-based reports, together with proofs about it.

The file-reading helpers (`price_card_stylesheet`, `price_card`,
`html_report_stylesheet`, `html_report`, `row`) depend on template files on
disk and are not needed by the properties below.  The remaining helpers are
pure string formatters and are embedded directly.

Numeric KPI values and thresholds are `float` in the Python signature; the
branch logic uses only `<` and `>`, and every value in the specification's
examples is an integer, so they are modelled as `Int` (Python's `str` on an
`int` agrees with Lean's `toString` on `Int`).  The single `print` in `kpi`
is modelled explicitly: `kpi` returns the pair (printed diagnostic lines,
return value).
-/

namespace WidgetHelpers

/-- Embedding of `h`: wraps text into an HTML `h` tag of the given level,
`f"<h{str(level)}>{text}</h{level}>"`.  The level is not validated. -/
def h (level : Int) (text : String) : String :=
  "<h" ++ toString level ++ ">" ++ text ++ "</h" ++ toString level ++ ">"

/-- Embedding of `p`: wraps text into an HTML `p` tag, `f"<p>{text}</p>"`. -/
def p (text : String) : String :=
  "<p>" ++ text ++ "</p>"

/-- The red failure paragraph produced by `kpi`
(`f-string` on lines 154 and 158 of the source, both identical). -/
def kpiRed (s : String) (value t : Int) : String :=
  "<p style=\"color:red\">&#10060; " ++ s ++ ". " ++ toString value ++ " < "
    ++ toString t ++ " </p>"

/-- The green success paragraph produced by `kpi`
(`f-string` on lines 155 and 160 of the source, both identical). -/
def kpiGreen (s : String) (value t : Int) : String :=
  "<p style=\"color:green\">&#x2705; " ++ s ++ ". " ++ toString value ++ " > "
    ++ toString t ++ " </p>"

/-- The orange in-between paragraph produced by `kpi`
(`f-string` on line 161 of the source). -/
def kpiOrange (s : String) (t0 value t1 : Int) : String :=
  "<p style=\"color:orange\">&#128993; " ++ s ++ ". " ++ toString t0 ++ " < "
    ++ toString value ++ " < " ++ toString t1 ++ " </p>"

/-- The diagnostic printed by `kpi` on an unsupported shape (line 162). -/
def kpiErrMsg : String := "Error. KPI condition is not correctly set"

/-- Embedding of `kpi`: the two length tests
(`len(thresholds) == 1 and len(sentences) == 2`, then
`len(thresholds) == 2 and len(sentences) == 3`) are rendered as the two list
patterns; every other shape falls to the error path, which prints a
diagnostic and returns `""`.  The result is the pair
(printed lines, returned string). -/
def kpi (thresholds : List Int) (sentences : List String) (value : Int) :
    List String × String :=
  match thresholds, sentences with
  | [t0], [s0, s1] =>
    if value < t0 then ([], kpiRed s0 value t0)
    else ([], kpiGreen s1 value t0)
  | [t0, t1], [s0, s1, s2] =>
    if value < t0 then ([], kpiRed s0 value t0)
    else if value > t1 then ([], kpiGreen s2 value t1)
    else ([], kpiOrange s1 t0 value t1)
  | _, _ => ([kpiErrMsg], "")

/-- Embedding of `add_tab`: the tab-content container div (multiline
`f-string` on lines 181-186 of the source, whitespace preserved). -/
def add_tab (title : String) (htmlcode : String) : String :=
  "<div id=\"" ++ title ++ "\" class=\"tabcontent\"></br>\n"
    ++ "        <p style=\"border:3px; border-style:solid;\n"
    ++ "            border-color:#000000; padding: 1em; width: 1050px;\" contentEditable=\"true\">\n"
    ++ "                No comment.\n"
    ++ "        </p>" ++ htmlcode ++ "\n    </div>"

/-- Embedding of `tab_clickable_evt`: the fixed tab-switching script block
(triple-quoted constant on lines 197-221 of the source). -/
def tab_clickable_evt : String :=
  "\n        <script>\n        function menu(evt, menu_name) \x7b\n"
    ++ "          var i, tabcontent, tablinks;\n"
    ++ "          tabcontent = document.getElementsByClassName(\"tabcontent\");\n"
    ++ "          for (i = 0; i < tabcontent.length; i++) \x7b\n"
    ++ "            tabcontent[i].style.display = \"none\";\n"
    ++ "          \x7d\n"
    ++ "          tablinks = document.getElementsByClassName(\"tablinks\");\n"
    ++ "          for (i = 0; i < tablinks.length; i++) \x7b\n"
    ++ "            tablinks[i].className = tablinks[i].className.replace(\" active\", \"\");\n"
    ++ "            tablinks[i].style.backgroundColor = \"white\";\n"
    ++ "            tablinks[i].style.color = \"black\";\n"
    ++ "          \x7d\n"
    ++ "          document.getElementById(menu_name).style.display = \"block\";\n\n"
    ++ "          evt.currentTarget.className += \" active\";\n"
    ++ "          evt.currentTarget.style.backgroundColor = \"black\";\n"
    ++ "          evt.currentTarget.style.color = \"white\";\n"
    ++ "        \x7d\n\n"
    ++ "        window.onload=function()\x7b\n"
    ++ "            menu(event, \x27SUMMARY\x27);\n"
    ++ "        \x7d;\n"
    ++ "        </script>"

/-- The per-tab button emitted by `tablinks`
(`f-string` on line 239 of the source). -/
def tabButton (tab : String) : String :=
  "<button class=\"tablinks\" onclick=\"menu(event, \x27" ++ tab ++ "\x27)\">"
    ++ tab ++ "</button>"

/-- The loop body of `tablinks` (lines 238-241): `idx` is the running
`enumerate` counter; after every button whose `(idx + 1) % 5 == 0` a
`</br>` is appended. -/
def tablinksBody : List String → Nat → String
  | [], _ => ""
  | tab :: rest, idx =>
    tabButton tab ++ (if (idx + 1) % 5 = 0 then "</br>" else "")
      ++ tablinksBody rest (idx + 1)

/-- Embedding of `tablinks`: the tab bar container wrapping the loop output. -/
def tablinks (tabs : List String) : String :=
  "<div class=\"tab\">" ++ tablinksBody tabs 0 ++ "</div>"

/-- Embedding of `header`: the fixed two-column report header block
(multiline `f-string` on lines 269-279 of the source). -/
def header (img author report_date report_time report_tz title : String) :
    String :=
  "\n        <div style=\"display:flex; margin-bottom:1cm;\">\n"
    ++ "            " ++ img ++ "\n"
    ++ "            <div style=\"margin-left:2em\">\n"
    ++ "                <p><b>Analyst:</b> " ++ author ++ "</p>\n"
    ++ "                <p><b>Date   :</b> " ++ report_date ++ "</p>\n"
    ++ "                <p><b>Time   :</b> " ++ report_time ++ " " ++ report_tz ++ "</p>\n"
    ++ "                <br/>\n"
    ++ "                <p>" ++ title ++ "</p>\n"
    ++ "            </div>\n"
    ++ "        </div>"

/-- Structural view of the `tablinks` output: the markup pieces the loop
emits, one `button` piece per title plus the inserted `brk` markers.
Used to state which pieces the loop emits and in which order. -/
inductive TabPiece : Type
  | button (title : String) : TabPiece
  | brk : TabPiece
deriving DecidableEq

/-- Rendering of a single structural piece back to its markup. -/
def TabPiece.render : TabPiece → String
  | .button t => tabButton t
  | .brk => "</br>"

/-- Recogniser for the line-break marker piece. -/
def TabPiece.isBrk : TabPiece → Bool
  | .brk => true
  | .button _ => false

/-- Recogniser for the button piece. -/
def TabPiece.isButton : TabPiece → Bool
  | .button _ => true
  | .brk => false

/-- The structural pieces the `tablinks` loop emits, starting from counter
`idx`: a button for each title, with a break marker after every button whose
`(idx + 1) % 5 == 0`. -/
def tablinksPieces : List String → Nat → List TabPiece
  | [], _ => []
  | tab :: rest, idx =>
    TabPiece.button tab
      :: ((if (idx + 1) % 5 = 0 then [TabPiece.brk] else [])
        ++ tablinksPieces rest (idx + 1))

theorem string_append_assoc (a b c : String) : a ++ b ++ c = a ++ (b ++ c) := by
  apply String.ext
  simp [String.data_append, List.append_assoc]

theorem string_join_cons (s : String) (l : List String) :
    String.join (s :: l) = s ++ String.join l := by
  apply String.ext
  simp [String.join_eq, String.data_append]

theorem tablinksBody_eq_join (tabs : List String) :
    ∀ idx, tablinksBody tabs idx
      = String.join ((tablinksPieces tabs idx).map TabPiece.render) := by
  induction tabs with
  | nil => intro idx; rfl
  | cons t rest ih =>
    intro idx
    by_cases hm : (idx + 1) % 5 = 0 <;>
      simp [tablinksBody, tablinksPieces, hm, TabPiece.render, ih (idx + 1),
        string_join_cons, string_append_assoc]

theorem tablinksPieces_brk_count (tabs : List String) :
    ∀ idx, (tablinksPieces tabs idx).countP TabPiece.isBrk + idx / 5
      = (idx + tabs.length) / 5 := by
  induction tabs with
  | nil => intro idx; simp [tablinksPieces]
  | cons t rest ih =>
    intro idx
    have hrec := ih (idx + 1)
    by_cases hm : (idx + 1) % 5 = 0 <;>
      simp [tablinksPieces, hm, List.countP_cons, List.countP_append,
        TabPiece.isBrk] at hrec ⊢ <;>
      omega

theorem tablinksPieces_button_count (tabs : List String) :
    ∀ idx, (tablinksPieces tabs idx).countP TabPiece.isButton
      = tabs.length := by
  induction tabs with
  | nil => intro idx; simp [tablinksPieces]
  | cons t rest ih =>
    intro idx
    by_cases hm : (idx + 1) % 5 = 0 <;>
      simp [tablinksPieces, hm, List.countP_cons, List.countP_append,
        TabPiece.isBrk, TabPiece.isButton, ih (idx + 1)]

theorem tablinksPieces_eq_enumFrom (tabs : List String) :
    ∀ idx, tablinksPieces tabs idx
      = ((List.enumFrom idx tabs).map fun pr =>
          TabPiece.button pr.2
            :: (if (pr.1 + 1) % 5 = 0 then [TabPiece.brk] else [])).flatten := by
  induction tabs with
  | nil => intro idx; rfl
  | cons t rest ih =>
    intro idx
    simp [tablinksPieces, List.enumFrom, ih (idx + 1)]

/-- Claim C1: in the two-threshold shape, `kpi` returns the red paragraph
with sentence 0 when the value is below the first threshold, the green
paragraph with sentence 2 when it is above the second, and otherwise the
orange paragraph with sentence 1; in particular
`kpi [5, 10] ["a", "b", "c"] 7` is the orange message referencing `"b"`. -/
theorem kpi_two_threshold_bands (t0 t1 : Int) (s0 s1 s2 : String) (v : Int) :
    kpi [t0, t1] [s0, s1, s2] v
      = (if v < t0 then ([], kpiRed s0 v t0)
         else if v > t1 then ([], kpiGreen s2 v t1)
         else ([], kpiOrange s1 t0 v t1)) ∧
    kpi [5, 10] ["a", "b", "c"] 7
      = ([], "<p style=\"color:orange\">&#128993; b. 5 < 7 < 10 </p>") :=
  ⟨rfl, rfl⟩

/-- Claim C2: all threshold comparisons in `kpi` are strict, so a value
equal to a threshold falls into the else branch: `kpi [t] [s0, s1] t` takes
the green path, and in the two-threshold shape (thresholds in order) a value
equal to either threshold takes the orange middle branch. -/
theorem kpi_strict_boundaries (t : Int) (s0 s1 : String) (t0 t1 : Int)
    (u0 u1 u2 : String) (hle : t0 ≤ t1) :
    kpi [t] [s0, s1] t = ([], kpiGreen s1 t t) ∧
    kpi [t0, t1] [u0, u1, u2] t0 = ([], kpiOrange u1 t0 t0 t1) ∧
    kpi [t0, t1] [u0, u1, u2] t1 = ([], kpiOrange u1 t0 t1 t1) := by
  have hn1 : ¬t < t := lt_irrefl t
  have hn2 : ¬t0 < t0 := lt_irrefl t0
  have hn3 : ¬t1 < t0 := not_lt.mpr hle
  have hn4 : ¬t1 > t1 := lt_irrefl t1
  refine ⟨?_, ?_, ?_⟩ <;> simp [kpi, hn1, hn2, hn3, hn4]

/-- Witness for C2 at `t = 10`, `thresholds = [5, 10]`. -/
theorem kpi_strict_boundaries_witness :
    kpi [10] ["low", "high"] 10 = ([], kpiGreen "high" 10 10) ∧
    kpi [5, 10] ["a", "b", "c"] 5 = ([], kpiOrange "b" 5 5 10) ∧
    kpi [5, 10] ["a", "b", "c"] 10 = ([], kpiOrange "b" 5 10 10) :=
  kpi_strict_boundaries 10 "low" "high" 5 10 "a" "b" "c" (by decide)

/-- Claim C3: in the one-threshold shape, `kpi` returns the red failure
paragraph with sentence 0 and the text `v < t` when `v < t`, and otherwise
the green success paragraph with sentence 1 and the text `v > t`; with the
concrete examples from the specification. -/
theorem kpi_one_threshold (t : Int) (s0 s1 : String) (v : Int) :
    kpi [t] [s0, s1] v
      = (if v < t then ([], kpiRed s0 v t) else ([], kpiGreen s1 v t)) ∧
    kpi [10] ["low", "high"] 5
      = ([], "<p style=\"color:red\">&#10060; low. 5 < 10 </p>") ∧
    kpi [10] ["low", "high"] 15
      = ([], "<p style=\"color:green\">&#x2705; high. 15 > 10 </p>") :=
  ⟨rfl, rfl, rfl⟩

/-- Claim C4: for every shape other than (1 threshold, 2 sentences) and
(2 thresholds, 3 sentences), and every value, `kpi` prints the diagnostic
and returns the empty string (no exception: the function is total). -/
theorem kpi_unsupported_shape (thresholds : List Int)
    (sentences : List String) (value : Int)
    (h1 : ¬(thresholds.length = 1 ∧ sentences.length = 2))
    (h2 : ¬(thresholds.length = 2 ∧ sentences.length = 3)) :
    kpi thresholds sentences value = ([kpiErrMsg], "") := by
  rcases thresholds with _ | ⟨t0, _ | ⟨t1, _ | ⟨t2, tr⟩⟩⟩ <;>
    rcases sentences with _ | ⟨s0, _ | ⟨s1, _ | ⟨s2, _ | ⟨s3, sr⟩⟩⟩⟩ <;>
    first
      | exact absurd (And.intro rfl rfl) h1
      | exact absurd (And.intro rfl rfl) h2
      | rfl

/-- Witness for C4 at `thresholds = [1, 2]`, `sentences = ["a"]`. -/
theorem kpi_unsupported_shape_witness :
    kpi [1, 2] ["a"] 0 = ([kpiErrMsg], "") :=
  kpi_unsupported_shape [1, 2] ["a"] 0 (by decide) (by decide)

set_option maxRecDepth 8192 in
/-- Claim C5: `tablinks` emits one button per title, in input order, each
wired to `menu(event, ...)` with the title as target id, and inserts a
`</br>` after every 5th button; `tablinks ["A", ..., "F"]` contains exactly
one `</br>`, immediately after the 5th button. -/
theorem tablinks_buttons_in_order (tabs : List String) :
    tablinks tabs
      = "<div class=\"tab\">"
        ++ String.join ((tablinksPieces tabs 0).map TabPiece.render)
        ++ "</div>" ∧
    tablinksPieces tabs 0
      = (tabs.enum.map fun pr =>
          TabPiece.button pr.2
            :: (if (pr.1 + 1) % 5 = 0 then [TabPiece.brk] else [])).flatten ∧
    (∀ tb, TabPiece.render (TabPiece.button tb)
      = "<button class=\"tablinks\" onclick=\"menu(event, \x27" ++ tb
        ++ "\x27)\">" ++ tb ++ "</button>") ∧
    tablinks ["A", "B", "C", "D", "E", "F"]
      = "<div class=\"tab\">" ++ tabButton "A" ++ tabButton "B" ++ tabButton "C"
        ++ tabButton "D" ++ tabButton "E" ++ "</br>" ++ tabButton "F"
        ++ "</div>" := by
  refine ⟨?_, ?_, fun tb => rfl, ?_⟩
  · simp only [tablinks, tablinksBody_eq_join tabs 0]
  · simpa [List.enum] using tablinksPieces_eq_enumFrom tabs 0
  · rfl

/-- Claim C6: `h level text` is exactly
`"<h" ++ level ++ ">" ++ text ++ "</h" ++ level ++ ">"`, the level being
unchecked; in particular `h 3 "x" = "<h3>x</h3>"`. -/
theorem h_renders_heading (level : Int) (text : String) :
    h level text
      = "<h" ++ toString level ++ ">" ++ text ++ "</h" ++ toString level
        ++ ">" ∧
    h 3 "x" = "<h3>x</h3>" :=
  ⟨rfl, rfl⟩

/-- Claim C7: `add_tab title htmlcode` is a container div whose id is the
title and whose class is `tabcontent`, holding the fixed
`contentEditable` comment placeholder block followed by the supplied inner
HTML, both unchanged. -/
theorem add_tab_structure (title htmlcode : String) :
    add_tab title htmlcode
      = "<div id=\"" ++ title ++ "\" class=\"tabcontent\"></br>\n"
        ++ "        <p style=\"border:3px; border-style:solid;\n"
        ++ "            border-color:#000000; padding: 1em; width: 1050px;\" contentEditable=\"true\">\n"
        ++ "                No comment.\n"
        ++ "        </p>" ++ htmlcode ++ "\n    </div>" :=
  rfl

/-- Claim C8: every helper that reads no file (`h`, `p`, `kpi`, `add_tab`,
`tablinks`, `header`, `tab_clickable_evt`) is deterministic: two calls with
equal arguments return equal strings, with no hidden state. -/
theorem widget_helpers_deterministic
    (l1 l2 : Int) (x1 x2 : String)
    (ts1 ts2 : List Int) (ss1 ss2 : List String) (v1 v2 : Int)
    (ti1 ti2 hc1 hc2 : String)
    (tabs1 tabs2 : List String)
    (im1 im2 au1 au2 dt1 dt2 tm1 tm2 tz1 tz2 ttl1 ttl2 : String)
    (hl : l1 = l2) (hx : x1 = x2) (hts : ts1 = ts2) (hss : ss1 = ss2)
    (hv : v1 = v2) (hti : ti1 = ti2) (hhc : hc1 = hc2)
    (htabs : tabs1 = tabs2) (him : im1 = im2) (hau : au1 = au2)
    (hdt : dt1 = dt2) (htm : tm1 = tm2) (htz : tz1 = tz2)
    (httl : ttl1 = ttl2) :
    h l1 x1 = h l2 x2 ∧ p x1 = p x2 ∧ kpi ts1 ss1 v1 = kpi ts2 ss2 v2 ∧
    add_tab ti1 hc1 = add_tab ti2 hc2 ∧ tablinks tabs1 = tablinks tabs2 ∧
    header im1 au1 dt1 tm1 tz1 ttl1 = header im2 au2 dt2 tm2 tz2 ttl2 ∧
    tab_clickable_evt = tab_clickable_evt := by
  subst hl hx hts hss hv hti hhc htabs him hau hdt htm htz httl
  exact ⟨rfl, rfl, rfl, rfl, rfl, rfl, rfl⟩

/-- Witness for C8 at concrete arguments. -/
theorem widget_helpers_deterministic_witness :
    h 3 "x" = h 3 "x" ∧ p "x" = p "x" ∧
    kpi [10] ["low", "high"] 5 = kpi [10] ["low", "high"] 5 ∧
    add_tab "T" "B" = add_tab "T" "B" ∧
    tablinks ["A"] = tablinks ["A"] ∧
    header "i" "a" "d" "t" "z" "T" = header "i" "a" "d" "t" "z" "T" ∧
    tab_clickable_evt = tab_clickable_evt :=
  widget_helpers_deterministic 3 3 "x" "x" [10] [10] ["low", "high"]
    ["low", "high"] 5 5 "T" "T" "B" "B" ["A"] ["A"] "i" "i" "a" "a" "d" "d"
    "t" "t" "z" "z" "T" "T" rfl rfl rfl rfl rfl rfl rfl rfl rfl rfl rfl rfl
    rfl rfl

/-- Claim C9: for `n` titles the `tablinks` output consists of exactly `n`
button pieces and exactly `n / 5` line-break pieces, and
`tablinks []` is exactly the empty tab container. -/
theorem tablinks_piece_counts (tabs : List String) :
    tablinks tabs
      = "<div class=\"tab\">"
        ++ String.join ((tablinksPieces tabs 0).map TabPiece.render)
        ++ "</div>" ∧
    (tablinksPieces tabs 0).countP TabPiece.isBrk = tabs.length / 5 ∧
    (tablinksPieces tabs 0).countP TabPiece.isButton = tabs.length ∧
    tablinks [] = "<div class=\"tab\"></div>" := by
  refine ⟨?_, ?_, tablinksPieces_button_count tabs 0, rfl⟩
  · simp only [tablinks, tablinksBody_eq_join tabs 0]
  · simpa using tablinksPieces_brk_count tabs 0

/-- Claim C10: at a boundary value equal to either threshold (thresholds in
order), the two-threshold shape returns the orange paragraph whose text
asserts the strict chain `t0 < value < t1` even though that strict
inequality is false there; in particular
`kpi [5, 10] ["a", "b", "c"] 5` shows `5 < 5 < 10`. -/
theorem kpi_boundary_text (t0 t1 : Int) (s0 s1 s2 : String)
    (hle : t0 ≤ t1) :
    kpi [t0, t1] [s0, s1, s2] t0 = ([], kpiOrange s1 t0 t0 t1) ∧
    kpi [t0, t1] [s0, s1, s2] t1 = ([], kpiOrange s1 t0 t1 t1) ∧
    kpiOrange s1 t0 t0 t1
      = "<p style=\"color:orange\">&#128993; " ++ s1 ++ ". " ++ toString t0
        ++ " < " ++ toString t0 ++ " < " ++ toString t1 ++ " </p>" ∧
    ¬t0 < t0 ∧ ¬t1 < t1 ∧
    kpi [5, 10] ["a", "b", "c"] 5
      = ([], "<p style=\"color:orange\">&#128993; b. 5 < 5 < 10 </p>") := by
  have hn1 : ¬t0 < t0 := lt_irrefl t0
  have hn2 : ¬t1 < t0 := not_lt.mpr hle
  have hn3 : ¬t1 > t1 := lt_irrefl t1
  refine ⟨?_, ?_, rfl, hn1, lt_irrefl t1, rfl⟩ <;>
    simp [kpi, hn1, hn2, hn3]

/-- Witness for C10 at `thresholds = [5, 10]`. -/
theorem kpi_boundary_text_witness :
    kpi [5, 10] ["a", "b", "c"] 5 = ([], kpiOrange "b" 5 5 10) ∧
    kpi [5, 10] ["a", "b", "c"] 10 = ([], kpiOrange "b" 5 10 10) ∧
    kpiOrange "b" 5 5 10
      = "<p style=\"color:orange\">&#128993; " ++ "b" ++ ". "
        ++ toString (5 : Int) ++ " < " ++ toString (5 : Int) ++ " < "
        ++ toString (10 : Int) ++ " </p>" ∧
    ¬(5 : Int) < 5 ∧ ¬(10 : Int) < 10 ∧
    kpi [5, 10] ["a", "b", "c"] 5
      = ([], "<p style=\"color:orange\">&#128993; b. 5 < 5 < 10 </p>") :=
  kpi_boundary_text 5 10 "a" "b" "c" (by decide)

end WidgetHelpers
